import Mathlib

/-!
# lsc: a verification development

`lsc` (src/lsc.go) is a command line client with five subcommands
(`on`, `reboot`, `shutdown`, `cycle`, `status`).  Each handler parses its
positional argument with `strconv.Atoi`, falls back to the `DropletID` of the
configuration when the parsed value is `0`, performs one call of the godo API
and prints either a fixed sentence, a JSON dump or a table.

The embedding keeps the handlers as five separate functions, as in the source.
Side effects (API calls, standard output, `log.Fatal`) are recorded in an
explicit `World` that is threaded through the program.  Two packages of the Go
standard library decide what the program does and are embedded as well:
`strconv` (the parse of the argument) and `text/tabwriter` (the status table).
-/

namespace Lsc

/-! ## Go runtime: `int`, strings as byte sequences, `strconv.Atoi` -/

/-- Width of Go's `int` (`strconv.IntSize`) on a 64-bit platform. -/
def intSize : Nat := 64

/-- The two sentinel errors of package `strconv` (`ErrSyntax`, `ErrRange`) that a
`*NumError` returned by `Atoi` can wrap. -/
inductive NumError where
  | ErrSyntax
  | ErrRange
  deriving DecidableEq, Repr

/-- The bytes of a Go string (`[]byte(s)`): the UTF-8 encoding, one `Nat` below 256
per byte. -/
def goBytes (s : String) : List Nat :=
  s.toUTF8.data.toList.map UInt8.toNat

/-- Conversion `int64(u)` of a `uint64`: two's complement reinterpretation. -/
def int64 (u : Nat) : Int :=
  if u % 2 ^ 64 < 2 ^ 63 then ((u % 2 ^ 64 : Nat) : Int) else ((u % 2 ^ 64 : Nat) : Int) - 2 ^ 64

/-- Negation `-n` of an `int64`, wrapping on `math.MinInt64`. -/
def neg64 (n : Int) : Int :=
  if n = -(2 ^ 63) then n else -n

/-- `lower(c)` of strconv: `c | ('x' - 'X')`. -/
def lower (c : Nat) : Nat := c ||| 0x20

/-- The digit loop of `strconv.ParseUint(s, 10, bitSize)` (`base = 10`, so `base0` is
false and an underscore falls to the `default` case).  `n` is the `uint64`
accumulator; the result is the pair `(value, err)` that `ParseUint` returns. -/
def ParseUint.loop (maxVal cutoff : Nat) : List Nat → Nat → Nat × Option NumError
  | [], n => (n, none)
  | c :: cs, n =>
    if 48 ≤ c ∧ c ≤ 57 then
      let d := c - 48
      if n ≥ cutoff then
        -- n*base overflows
        (maxVal, some .ErrRange)
      else
        let n10 := (n * 10) % 2 ^ 64
        let n1 := (n10 + d) % 2 ^ 64
        if n1 < n10 ∨ n1 > maxVal then
          -- n+d overflows
          (maxVal, some .ErrRange)
        else
          ParseUint.loop maxVal cutoff cs n1
    else if 97 ≤ lower c ∧ lower c ≤ 122 then
      -- d = lower(c) - 'a' + 10 is at least the base
      (0, some .ErrSyntax)
    else
      (0, some .ErrSyntax)

/-- The call `strconv.ParseUint(s, 10, bitSize)` on the bytes of `s`; `bitSize = 0`
stands for `IntSize`. -/
def ParseUint (s : List Nat) (bitSize : Nat) : Nat × Option NumError :=
  if s = [] then (0, some .ErrSyntax)
  else
    let bitSize := if bitSize = 0 then intSize else bitSize
    let cutoff := (2 ^ 64 - 1) / 10 + 1
    let maxVal := 2 ^ bitSize - 1
    ParseUint.loop maxVal cutoff s 0

/-- The call `strconv.ParseInt(s, 10, bitSize)` on the bytes of `s`. -/
def ParseInt (s : List Nat) (bitSize : Nat) : Int × Option NumError :=
  match s with
  | [] => (0, some .ErrSyntax)
  | c0 :: rest =>
    -- Pick off leading sign.
    let neg := c0 = 45
    let s := if c0 = 43 then rest else if c0 = 45 then rest else c0 :: rest
    -- Convert unsigned and check range.
    let (un, err) := ParseUint s bitSize
    if err ≠ none ∧ err ≠ some .ErrRange then (0, err)
    else
      let bitSize := if bitSize = 0 then intSize else bitSize
      let cutoff := 2 ^ (bitSize - 1)
      if ¬ neg ∧ un ≥ cutoff then (int64 (cutoff - 1), some .ErrRange)
      else if neg ∧ un > cutoff then (neg64 (int64 cutoff), some .ErrRange)
      else
        let n := int64 un
        (if neg then neg64 n else n, none)

/-- The loop of the fast path of `strconv.Atoi`: `ch -= '0'` is byte arithmetic. -/
def Atoi.fast : List Nat → Int → Option Int
  | [], n => some n
  | ch :: cs, n =>
    let ch := (ch + 256 - 48) % 256
    if ch > 9 then none
    else Atoi.fast cs (n * 10 + ch)

/-- Go's `strconv.Atoi(s)`: the pair `(value, err)`, `err = none` for `nil`.
Strings shorter than 19 bytes take the fast path, all others go through
`ParseInt(s, 10, 0)`, whose value is returned together with the error. -/
def Atoi (s : String) : Int × Option NumError :=
  let b := goBytes s
  let sLen := b.length
  if (intSize = 32 ∧ (0 < sLen ∧ sLen < 10)) ∨ (intSize = 64 ∧ (0 < sLen ∧ sLen < 19)) then
    match b with
    | [] => (0, some .ErrSyntax)
    | c0 :: rest =>
      let signed := c0 = 45 ∨ c0 = 43
      if signed ∧ rest.length < 1 then (0, some .ErrSyntax)
      else
        match Atoi.fast (if signed then rest else c0 :: rest) 0 with
        | none => (0, some .ErrSyntax)
        | some n => (if c0 = 45 then -n else n, none)
  else
    -- Slow path for invalid, big, or underscored integers.
    ParseInt b 0

/-! ## Go standard library: `text/tabwriter`

`Status` prints through a `tabwriter.Writer` set up by
`w.Init(os.Stdout, 0, 8, 3, '\t', 0)`.  The writer is embedded for that use: the
padding character is a tab and `flags` is 0 (no HTML filter, no stripping of escapes,
cells aligned left, no discarding of empty columns, no tab indent, no debug bars).
The text is a list of characters, the UTF-8 decoding of the bytes Go holds: a cell's
`size` counts characters where Go counts bytes, and cuts the same text out of the
buffer; its `width` is the number of runes, as in Go.  The byte `0xff` that opens an
escaped segment is not a byte of UTF-8 text, so the writer is never inside an escape.
-/

namespace tabwriter

/-- The struct `cell`: size of the cell's text in the buffer, width in runes, and
whether the cell is terminated by an htab. -/
structure cell where
  size : Nat
  width : Nat
  htab : Bool
  deriving DecidableEq, Repr

/-- The struct `Writer`: configuration (`minwidth`, `tabwidth`, `padding`), current
state (`buf`, `pos`, the incomplete `cell`, `lines`, `widths`), and `output`, the text
sent so far to the underlying `io.Writer`. -/
structure Writer where
  minwidth : Nat
  tabwidth : Nat
  padding : Nat
  buf : List Char
  pos : Nat
  cell : tabwriter.cell
  lines : List (List tabwriter.cell)
  widths : List Nat
  output : List Char
  deriving DecidableEq, Repr

namespace Writer

/-- The method `addLine`: a new, empty line of cells. -/
def addLine (b : Writer) : Writer :=
  { b with lines := b.lines ++ [[]] }

/-- The method `reset`: the state is cleared and holds one empty line. -/
def reset (b : Writer) : Writer :=
  addLine { b with buf := [], pos := 0, cell := ⟨0, 0, false⟩, lines := [], widths := [] }

/-- The method `Init(output, minwidth, tabwidth, padding, '\t', 0)`. -/
def Init (minwidth tabwidth padding : Nat) : Writer :=
  reset { minwidth := minwidth, tabwidth := tabwidth, padding := padding, buf := [], pos := 0,
          cell := ⟨0, 0, false⟩, lines := [], widths := [], output := [] }

/-- The method `write0`: text goes to the underlying writer. -/
def write0 (b : Writer) (buf : List Char) : Writer :=
  { b with output := b.output ++ buf }

/-- The method `writeN`, for a source made of one repeated character. -/
def writeN (b : Writer) (src : Char) (n : Nat) : Writer :=
  b.write0 (List.replicate n src)

/-- The method `writePadding(textw, cellw, useTabs)` when the padding character is a
tab: the cell width is made a multiple of `tabwidth` and filled with tabs. -/
def writePadding (b : Writer) (textw cellw : Nat) : Writer :=
  if b.tabwidth = 0 then b
  else
    -- make cellw the smallest multiple of b.tabwidth
    let cellw := (cellw + b.tabwidth - 1) / b.tabwidth * b.tabwidth
    let n := cellw - textw
    b.writeN '\t' ((n + b.tabwidth - 1) / b.tabwidth)

/-- The inner loop of `writeLines`, `for j, c := range line`: the cells of one line,
from cell `j` on, with the buffer position `pos`. -/
def writeCells (b : Writer) : List tabwriter.cell → Nat → Nat → Writer × Nat
  | [], _, pos => (b, pos)
  | c :: cs, j, pos =>
    if c.size = 0 then
      -- empty cell
      let b := if j < b.widths.length then b.writePadding c.width (b.widths.getD j 0) else b
      writeCells b cs (j + 1) pos
    else
      -- non-empty cell, align left
      let b := b.write0 ((b.buf.drop pos).take c.size)
      let pos := pos + c.size
      let b := if j < b.widths.length then b.writePadding c.width (b.widths.getD j 0) else b
      writeCells b cs (j + 1) pos

/-- The outer loop of `writeLines`, `for i := line0; i < line1; i++`, with `n`
iterations left. -/
def writeLines.loop (line1 : Nat) : Nat → Writer → Nat → Nat → Writer × Nat
  | 0, b, pos, _ => (b, pos)
  | n + 1, b, pos, i =>
    if i < line1 then
      let r := writeCells b (b.lines.getD i []) 0 pos
      if i + 1 = r.1.lines.length then
        -- last buffered line: no newline yet, the incomplete cell is written
        writeLines.loop line1 n (r.1.write0 ((r.1.buf.drop r.2).take r.1.cell.size))
          (r.2 + r.1.cell.size) (i + 1)
      else
        -- not the last line: write newline
        writeLines.loop line1 n (r.1.write0 ['\n']) r.2 (i + 1)
    else (b, pos)

/-- The method `writeLines(pos0, line0, line1)`; returns the writer and `pos`. -/
def writeLines (b : Writer) (pos0 line0 line1 : Nat) : Writer × Nat :=
  writeLines.loop line1 (line1 - line0) b pos0 line0

/-- The loop of `format` that finds the end of a column block,
`for ; this < line1; this++`, with `n` iterations left: it stops at the first line
without a cell in `column` (`column >= len(line)-1`) and returns that line and the
width of the column. -/
def format.block (b : Writer) (column line1 : Nat) : Nat → Nat → Nat → Nat × Nat
  | 0, this, width => (this, width)
  | n + 1, this, width =>
    if this < line1 then
      if column + 1 ≥ (b.lines.getD this []).length then (this, width)
      else
        -- cell exists in this column: update width
        let c := (b.lines.getD this []).getD column ⟨0, 0, false⟩
        let w := c.width + b.padding
        format.block b column line1 n (this + 1) (if w > width then w else width)
    else (this, width)

/-- The statement `b.widths = append(b.widths, width)`. -/
def pushWidth (b : Writer) (width : Nat) : Writer :=
  { b with widths := b.widths ++ [width] }

/-- The statement `b.widths = b.widths[0 : len(b.widths)-1]`. -/
def popWidth (b : Writer) : Writer :=
  { b with widths := b.widths.dropLast }

/-- The outer loop of `format`, `for this := line0; this < line1; this++`, with `n`
iterations left; `inner` is the recursive call of `format` for the columns to the
right. Returns the writer, `pos` and `line0`. -/
def format.loop (inner : Writer → Nat → Nat → Nat → Writer × Nat) (column line1 : Nat) :
    Nat → Writer → Nat → Nat → Nat → Writer × Nat × Nat
  | 0, b, pos, line0, _ => (b, pos, line0)
  | n + 1, b, pos, line0, this =>
    if this < line1 then
      if column + 1 ≥ (b.lines.getD this []).length then
        format.loop inner column line1 n b pos line0 (this + 1)
      else
        -- cell exists in this column: print unprinted lines until beginning of block
        let printed := b.writeLines pos line0 this
        -- column block begin ... column block end
        let block := format.block printed.1 column line1 (line1 - this) this printed.1.minwidth
        -- format and print all columns to the right of this column
        let r := inner (printed.1.pushWidth block.2) printed.2 this block.1
        format.loop inner column line1 n r.1.popWidth r.2 block.1 (block.1 + 1)
    else (b, pos, line0)

/-- The method `format(pos0, line0, line1)`, for the column `len(b.widths)`; returns
the writer and `pos`. `depth` bounds the nesting of the recursion, one level per
column: at depth 0 no line has a cell in the column, the loop of `format` skips every
line and `writeLines` is all that is left. -/
def format : Nat → Writer → Nat → Nat → Nat → Writer × Nat
  | 0, b, pos0, line0, line1 => b.writeLines pos0 line0 line1
  | depth + 1, b, pos0, line0, line1 =>
    let r := format.loop (format depth) b.widths.length line1 (line1 - line0) b pos0 line0 line0
    -- print unprinted lines until end
    r.1.writeLines r.2.1 r.2.2 line1

/-- The method `append`: text is added to the current cell. -/
def append (b : Writer) (text : List Char) : Writer :=
  { b with buf := b.buf ++ text, cell := { b.cell with size := b.cell.size + text.length } }

/-- The method `updateWidth`: the width of the current cell in runes. -/
def updateWidth (b : Writer) : Writer :=
  { b with cell := { b.cell with width := b.cell.width + (b.buf.drop b.pos).length },
           pos := b.buf.length }

/-- The method `terminateCell(htab)`: the current cell is added to the current line;
returns the writer and the number of cells in that line. -/
def terminateCell (b : Writer) (htab : Bool) : Writer × Nat :=
  let line := b.lines.getLastD [] ++ [{ b.cell with htab := htab }]
  ({ b with lines := b.lines.dropLast ++ [line], cell := ⟨0, 0, false⟩ }, line.length)

/-- The method `flushNoDefers`: the current cell is added if not empty, the buffered
lines are formatted and the state is reset. No line has more columns than the longest
line has cells, which is the depth given to `format`. -/
def flushNoDefers (b : Writer) : Writer :=
  let b := if b.cell.size > 0 then (b.terminateCell false).1 else b
  let depth := (b.lines.map List.length).foldl max 0
  (format depth b 0 0 b.lines.length).1.reset

/-- The method `Flush`. -/
def Flush (b : Writer) : Writer := b.flushNoDefers

/-- One character of the loop of `Write`, outside an escape: a tab, vertical tab,
newline or form feed ends the cell, a newline or form feed also the line, and a form
feed or a line of one cell flushes; any other character is text of the cell (Go appends
the text between two such characters in one piece). -/
def Write.step (b : Writer) (ch : Char) : Writer :=
  if ch = '\t' ∨ ch = '\x0b' ∨ ch = '\n' ∨ ch = '\x0c' then
    -- end of cell
    let r := b.updateWidth.terminateCell (ch = '\t')
    if ch = '\n' ∨ ch = '\x0c' then
      -- terminate line
      if ch = '\x0c' ∨ r.2 = 1 then r.1.addLine.flushNoDefers else r.1.addLine
    else r.1
  else b.append [ch]

/-- The method `Write(buf)`. -/
def Write (b : Writer) (buf : String) : Writer :=
  buf.toList.foldl Write.step b

end Writer
end tabwriter

/-! ## Data model of `lsc.go` -/

/-- The struct `TokenSource`. -/
structure TokenSource where
  AccessToken : String
  deriving DecidableEq, Repr

/-- The struct `tomlConfig`, decoded from `~/.lsccfg`. -/
structure tomlConfig where
  Token : String
  Log : Bool
  DropletID : Int
  deriving DecidableEq, Repr

/-- The fields of `godo.Droplet` that `lsc` reads. -/
structure Droplet where
  ID : Int
  Name : String
  Status : String
  deriving DecidableEq, Repr

/-- The methods of the godo client that `lsc` calls: `client.DropletActions.PowerOn`,
`.Shutdown`, `.PowerCycle`, `.Reboot` and `client.Droplets.Get`. -/
inductive Method where
  | PowerOn
  | Shutdown
  | PowerCycle
  | Reboot
  | Get
  deriving DecidableEq, Repr

/-- What a method returns on success: `client.Droplets.Get` a droplet, the four
droplet actions a `*godo.Action`, which `lsc` never inspects. -/
@[reducible] def Method.Resp (Action : Type) : Method → Type
  | .Get => Droplet
  | _ => Action

/-- A `*godo.Client`: for a method and a droplet ID either the error or the value the
call returns (`err != nil` is `Except.error`). -/
def Client (Action : Type) : Type :=
  (m : Method) → Int → Except String (m.Resp Action)

/-- The libraries `lsc` is linked against, as far as they are not embedded.
`NewClient` is `godo.NewClient(oauth2.NewClient(oauth2.NoContext, tokenSource))` and
`jsonMarshal` is `json.Marshal` on an action. -/
structure Env (Action : Type) where
  NewClient : TokenSource → Client Action
  jsonMarshal : Action → Except String String

/-! ## Effects -/

/-- One call of the remote API. -/
structure Call where
  method : Method
  id : Int
  deriving DecidableEq, Repr

/-- The observable effects so far: the API calls in order and the bytes on standard
output. -/
structure World where
  calls : List Call
  stdout : String
  deriving DecidableEq, Repr

/-- The result of running a piece of the program: it either goes on with a value, or
the process has been ended by `log.Fatal` with the message it logged. -/
inductive Step (α : Type) where
  | next (a : α) (w : World)
  | exit (msg : String) (w : World)

/-- A piece of the program. -/
def Prog (α : Type) : Type := World → Step α

instance : Monad Prog where
  pure a := fun w => .next a w
  bind p f := fun w =>
    match p w with
    | .next a w1 => f a w1
    | .exit msg w1 => .exit msg w1

/-- Calls `log.Fatal(msg)` and `log.Fatalf`: the message is logged and the process exits. -/
def logFatal {α : Type} (msg : String) : Prog α :=
  fun w => .exit msg w

/-- Calls `fmt.Println(s)` on standard output. -/
def Println (s : String) : Prog Unit :=
  fun w => .next () { w with stdout := w.stdout ++ s ++ "\n" }

/-- Bytes sent to `os.Stdout` by a writer that wraps it. -/
def writeStdout (s : String) : Prog Unit :=
  fun w => .next () { w with stdout := w.stdout ++ s }

/-- One method call on the client; it is recorded in the world. -/
def invoke {Action : Type} (client : Client Action) (m : Method) (id : Int) :
    Prog (Except String (m.Resp Action)) :=
  fun w => .next (client m id) { w with calls := w.calls ++ [⟨m, id⟩] }

/-- What an observer sees of one run of a handler. -/
structure Outcome where
  calls : List Call
  stdout : String
  fatal : Option String
  deriving DecidableEq, Repr

/-- Runs a handler in a fresh process. -/
def run (p : Prog Unit) : Outcome :=
  match p { calls := [], stdout := "" } with
  | .next _ w => { calls := w.calls, stdout := w.stdout, fatal := none }
  | .exit msg w => { calls := w.calls, stdout := w.stdout, fatal := some msg }

/-! ## The functions of `lsc.go` -/

section Handlers

variable {Action : Type}

/-- Gets the Droplet by a given ID. -/
def getDropletByID (client : Client Action) (id : Int) : Prog (Except String Droplet) := do
  if id < 1 then
    logFatal "missing droplet id"
  let r ← invoke client .Get id
  return r

/-- Writes Output as JSON used for debugging. -/
def WriteOutput (env : Env Action) (data : Action) : Prog Unit := do
  match env.jsonMarshal data with
  | .error err => logFatal ("JSON Encoding Error: " ++ err)
  | .ok output => Println output

/-- Function to PowerOn the Droplet. -/
def PowerOn (env : Env Action) (arg : String) (config : tomlConfig) : Prog Unit := do
  let tokenSource : TokenSource := { AccessToken := config.Token }
  let mut droplet_ID := (Atoi arg).1
  if droplet_ID = 0 then
    if config.DropletID = 0 then
      logFatal "No Droplet ID provided in Config! Use Parameters."
    else
      droplet_ID := config.DropletID
  let client := env.NewClient tokenSource
  match ← invoke client .PowerOn droplet_ID with
  | .error err => logFatal err
  | .ok action =>
    if config.Log then
      WriteOutput env action
    else
      Println "PowerOn the system. The action could take a few moments."

/-- Function to Reboot the Droplet. -/
def Reboot (env : Env Action) (arg : String) (config : tomlConfig) : Prog Unit := do
  let tokenSource : TokenSource := { AccessToken := config.Token }
  let mut droplet_ID := (Atoi arg).1
  if droplet_ID = 0 then
    if config.DropletID = 0 then
      logFatal "No Droplet ID provided in Config! Use Parameters."
    else
      droplet_ID := config.DropletID
  let client := env.NewClient tokenSource
  match ← invoke client .Reboot droplet_ID with
  | .error err => logFatal err
  | .ok action =>
    if config.Log then
      WriteOutput env action
    else
      Println "Reboot the system. The action could take a few moments."

/-- Function to Shutdown the Droplet. -/
def Shutdown (env : Env Action) (arg : String) (config : tomlConfig) : Prog Unit := do
  let tokenSource : TokenSource := { AccessToken := config.Token }
  let mut droplet_ID := (Atoi arg).1
  if droplet_ID = 0 then
    if config.DropletID = 0 then
      logFatal "No Droplet ID provided in Config! Use Parameters."
    else
      droplet_ID := config.DropletID
  let client := env.NewClient tokenSource
  match ← invoke client .Shutdown droplet_ID with
  | .error err => logFatal err
  | .ok action =>
    if config.Log then
      WriteOutput env action
    else
      Println "Shutdown the system. The action could take a few moments."

/-- Function to PowerCycle the Droplet (hard shutdown). -/
def Cycle (env : Env Action) (arg : String) (config : tomlConfig) : Prog Unit := do
  let tokenSource : TokenSource := { AccessToken := config.Token }
  let mut droplet_ID := (Atoi arg).1
  if droplet_ID = 0 then
    if config.DropletID = 0 then
      logFatal "No Droplet ID provided in Config! Use Parameters."
    else
      droplet_ID := config.DropletID
  let client := env.NewClient tokenSource
  match ← invoke client .PowerCycle droplet_ID with
  | .error err => logFatal err
  | .ok action =>
    if config.Log then
      WriteOutput env action
    else
      Println "Shutdown the system forcefully. The action could take a few moments."

/-- The table of `Status`, lines 307 to 312 of `lsc.go`: what the tab writer `w` on
`os.Stdout` has printed after the two `Fprint` calls and `w.Flush()`. -/
def statusTable (droplet : Droplet) : String :=
  -- w := new(tabwriter.Writer); w.Init(os.Stdout, 0, 8, 3, '\t', 0)
  let w := tabwriter.Writer.Init 0 8 3
  -- fmt.Fprintln(w, "ID\tName\tStatus\t")
  let w := w.Write ("ID\tName\tStatus\t" ++ "\n")
  -- fmt.Fprintf(w, "%d\t%s\t%s\n", droplet.ID, droplet.Name, droplet.Status)
  let w := w.Write (toString droplet.ID ++ "\t" ++ droplet.Name ++ "\t" ++ droplet.Status ++ "\n")
  -- w.Flush()
  let w := w.Flush
  String.mk w.output

/-- Function show the status of a Droplet. -/
def Status (env : Env Action) (arg : String) (config : tomlConfig) : Prog Unit := do
  let tokenSource : TokenSource := { AccessToken := config.Token }
  let mut droplet_ID := (Atoi arg).1
  if droplet_ID = 0 then
    if config.DropletID = 0 then
      logFatal "No Droplet ID provided in Config! Use Parameters."
    else
      droplet_ID := config.DropletID
  let client := env.NewClient tokenSource
  match ← getDropletByID client droplet_ID with
  | .error err => logFatal err
  | .ok droplet =>
    writeStdout (statusTable droplet)

end Handlers

/-! ## The command dispatcher of `main` -/

/-- The five subcommands registered in `main`: `on`, `reboot`, `shutdown`, `cycle`,
`status`. -/
inductive Cmd where
  | on
  | reboot
  | shutdown
  | cycle
  | status
  deriving DecidableEq, Repr

/-- The `Run` function of each subcommand, applied to `strings.Join(args, "")`. -/
def Cmd.handler {Action : Type} : Cmd → Env Action → String → tomlConfig → Prog Unit
  | .on => PowerOn
  | .reboot => Reboot
  | .shutdown => Shutdown
  | .cycle => Cycle
  | .status => Status

/-- The API method the specification associates with each subcommand. -/
def Cmd.method : Cmd → Method
  | .on => .PowerOn
  | .reboot => .Reboot
  | .shutdown => .Shutdown
  | .cycle => .PowerCycle
  | .status => .Get

/-! ## Vocabulary of the specification -/

/-- The value that the block opening every handler
(`droplet_ID, _ = strconv.Atoi(arg)` followed by `if droplet_ID == 0 ...`) leaves in
`droplet_ID`, or `none` when the block ends in `log.Fatal`. -/
def resolvedID (arg : String) (config : tomlConfig) : Option Int :=
  let droplet_ID := (Atoi arg).1
  if droplet_ID = 0 then
    if config.DropletID = 0 then none else some config.DropletID
  else some droplet_ID

/-- The lines of a text: the runs of characters between newlines. The empty run
after a final newline is not a line. -/
def textLines (s : String) : List (List Char) :=
  let parts := s.toList.splitOn '\n'
  if parts.getLast? = some [] then parts.dropLast else parts

/-- A run of `k` tabs. -/
def tabs (k : Nat) : String := String.mk (List.replicate k '\t')

/-- A header line: the cells `ID`, `Name`, `Status`, each followed by tabs. -/
def headerLine (k1 k2 k3 : Nat) : String :=
  "ID" ++ tabs k1 ++ "Name" ++ tabs k2 ++ "Status" ++ tabs k3

/-- A data line: the droplet's ID in decimal, its Name and its Status, in that order,
separated by tabs. -/
def dataLine (d : Droplet) (j1 j2 : Nat) : String :=
  toString d.ID ++ tabs j1 ++ d.Name ++ tabs j2 ++ d.Status

/-- A character that is none of the four that end a cell or a line for the tab writer:
tab, vertical tab, newline, form feed. -/
@[reducible] def Plain (c : Char) : Prop := c ≠ '\t' ∧ c ≠ '\x0b' ∧ c ≠ '\n' ∧ c ≠ '\x0c'

/-! ## Auxiliary definitions for the status table -/

/-- Number of tabs with which a tab writer of tab width 8 pads a text of width `textw`
in a column of width `cellw`. -/
def tabsN (textw cellw : Nat) : Nat := ((cellw + 8 - 1) / 8 * 8 - textw + 8 - 1) / 8

/-- The tab writer of `Status` with both lines of the table buffered: the header cells
`ID`, `Name`, `Status`, and a data line whose cells have the sizes `a`, `n`, `s`. -/
def tableState (B : List Char) (a n s p0 : Nat) (ws : List Nat) (out : List Char) :
    tabwriter.Writer :=
  { minwidth := 0, tabwidth := 8, padding := 3, buf := B, pos := p0,
    cell := ⟨0, 0, false⟩,
    lines := [[⟨2, 2, true⟩, ⟨4, 4, true⟩, ⟨6, 6, true⟩, ⟨0, 0, false⟩],
      [⟨a, a, true⟩, ⟨n, n, true⟩, ⟨s, s, false⟩], []],
    widths := ws, output := out }

/-! ## Concrete API layers, used to evaluate the handlers -/

/-- A mocked API layer: every action succeeds with its droplet ID as result, `Get`
returns the droplet `d`; the JSON text of an action is its decimal ID. -/
def mockGet (d : Droplet) : Env Int where
  NewClient := fun _ m id =>
    match m with
    | .Get => .ok d
    | .PowerOn => .ok id
    | .Shutdown => .ok id
    | .PowerCycle => .ok id
    | .Reboot => .ok id
  jsonMarshal := fun a => .ok (toString a)

/-- The mocked API layer whose droplet is `web`, `active`, with ID 7. -/
def mockOk : Env Int := mockGet { ID := 7, Name := "web", Status := "active" }

/-- A mocked API layer that rejects every call, and cannot serialise an action. -/
def mockFail : Env Int where
  NewClient := fun _ _ _ => .error "401 Unable to authenticate you."
  jsonMarshal := fun _ => .error "unsupported value"

/-! ## `strconv.Atoi` on sample arguments -/

theorem Atoi_42 : Atoi "42" = (42, none) := by decide
theorem Atoi_empty : Atoi "" = (0, some .ErrSyntax) := by decide
theorem Atoi_neg : Atoi "-5" = (-5, none) := by decide
theorem Atoi_abc : Atoi "abc" = (0, some .ErrSyntax) := by decide
theorem Atoi_max : Atoi "9223372036854775807" = (9223372036854775807, none) := by decide
theorem Atoi_over : Atoi "9223372036854775808" = (9223372036854775807, some .ErrRange) := by decide
theorem Atoi_min : Atoi "-9223372036854775808" = (-9223372036854775808, none) := by decide
theorem Atoi_under : Atoi "-9223372036854775809" = (-9223372036854775808, some .ErrRange) := by decide
theorem Atoi_over_abc : Atoi "99999999999999999999abc" = (9223372036854775807, some .ErrRange) := by decide
theorem Atoi_plus : Atoi "+" = (0, some .ErrSyntax) := by decide
theorem Atoi_uni : Atoi "é1" = (0, some .ErrSyntax) := by decide


/-! ## How a program runs -/

section Runs

variable {Action : Type}

theorem Prog.bind_apply {α β : Type} (p : Prog α) (f : α → Prog β) (w : World) :
    (p >>= f) w = match p w with
      | .next a w1 => f a w1
      | .exit msg w1 => .exit msg w1 := rfl

theorem Prog.pure_apply {α : Type} (a : α) (w : World) :
    (pure a : Prog α) w = .next a w := rfl

theorem resolvedID_some {arg : String} {cfg : tomlConfig} {id : Int}
    (h : resolvedID arg cfg = some id) :
    ((Atoi arg).1 ≠ 0 ∧ id = (Atoi arg).1) ∨
      ((Atoi arg).1 = 0 ∧ cfg.DropletID ≠ 0 ∧ id = cfg.DropletID) := by
  unfold resolvedID at h
  by_cases h0 : (Atoi arg).1 = 0
  · by_cases hd : cfg.DropletID = 0
    · simp [h0, hd] at h
    · simp [h0, hd] at h
      exact Or.inr ⟨h0, hd, h.symm⟩
  · simp [h0] at h
    exact Or.inl ⟨h0, h.symm⟩

theorem resolvedID_of_parsed {arg : String} {cfg : tomlConfig}
    (h : (Atoi arg).1 ≠ 0) : resolvedID arg cfg = some (Atoi arg).1 := by
  simp [resolvedID, h]

theorem resolvedID_of_default {arg : String} {cfg : tomlConfig}
    (h : (Atoi arg).1 = 0) (hd : cfg.DropletID ≠ 0) :
    resolvedID arg cfg = some cfg.DropletID := by
  simp [resolvedID, h, hd]

theorem resolvedID_none {arg : String} {cfg : tomlConfig}
    (h : (Atoi arg).1 = 0) (hd : cfg.DropletID = 0) : resolvedID arg cfg = none := by
  simp [resolvedID, h, hd]

/-- Every run of `PowerOn`, by cases on the resolved ID, the API response, `config.Log`
and the JSON encoder. -/
theorem PowerOn_run (env : Env Action) (arg : String) (cfg : tomlConfig) :
    run (PowerOn env arg cfg) =
      match resolvedID arg cfg with
      | none => ⟨[], "", some "No Droplet ID provided in Config! Use Parameters."⟩
      | some id =>
        match env.NewClient ⟨cfg.Token⟩ .PowerOn id with
        | .error e => ⟨[⟨.PowerOn, id⟩], "", some e⟩
        | .ok a =>
          if cfg.Log then
            match env.jsonMarshal a with
            | .error e => ⟨[⟨.PowerOn, id⟩], "", some ("JSON Encoding Error: " ++ e)⟩
            | .ok out => ⟨[⟨.PowerOn, id⟩], out ++ "\n", none⟩
          else
            ⟨[⟨.PowerOn, id⟩], "PowerOn the system. The action could take a few moments.\n", none⟩ := by
  unfold resolvedID
  by_cases h0 : (Atoi arg).1 = 0
  · by_cases hd : cfg.DropletID = 0
    · simp [PowerOn, run, h0, hd, Prog.bind_apply, logFatal]
    · cases hc : env.NewClient ⟨cfg.Token⟩ .PowerOn cfg.DropletID with
      | error e =>
        simp [PowerOn, run, h0, hd, hc, Prog.bind_apply, Prog.pure_apply, logFatal, invoke]
      | ok a =>
        cases hl : cfg.Log with
        | false =>
          simp [PowerOn, run, h0, hd, hc, hl, Prog.bind_apply, Prog.pure_apply, invoke, Println]
        | true =>
          cases hm : env.jsonMarshal a <;>
            simp [PowerOn, run, h0, hd, hc, hl, hm, Prog.bind_apply, Prog.pure_apply, logFatal,
              invoke, Println, WriteOutput]
  · cases hc : env.NewClient ⟨cfg.Token⟩ .PowerOn (Atoi arg).1 with
    | error e =>
      simp [PowerOn, run, h0, hc, Prog.bind_apply, Prog.pure_apply, logFatal, invoke]
    | ok a =>
      cases hl : cfg.Log with
      | false =>
        simp [PowerOn, run, h0, hc, hl, Prog.bind_apply, Prog.pure_apply, invoke, Println]
      | true =>
        cases hm : env.jsonMarshal a <;>
          simp [PowerOn, run, h0, hc, hl, hm, Prog.bind_apply, Prog.pure_apply, logFatal,
            invoke, Println, WriteOutput]

/-- Every run of `Reboot`, by cases on the resolved ID, the API response, `config.Log`
and the JSON encoder. -/
theorem Reboot_run (env : Env Action) (arg : String) (cfg : tomlConfig) :
    run (Reboot env arg cfg) =
      match resolvedID arg cfg with
      | none => ⟨[], "", some "No Droplet ID provided in Config! Use Parameters."⟩
      | some id =>
        match env.NewClient ⟨cfg.Token⟩ .Reboot id with
        | .error e => ⟨[⟨.Reboot, id⟩], "", some e⟩
        | .ok a =>
          if cfg.Log then
            match env.jsonMarshal a with
            | .error e => ⟨[⟨.Reboot, id⟩], "", some ("JSON Encoding Error: " ++ e)⟩
            | .ok out => ⟨[⟨.Reboot, id⟩], out ++ "\n", none⟩
          else
            ⟨[⟨.Reboot, id⟩], "Reboot the system. The action could take a few moments.\n", none⟩ := by
  unfold resolvedID
  by_cases h0 : (Atoi arg).1 = 0
  · by_cases hd : cfg.DropletID = 0
    · simp [Reboot, run, h0, hd, Prog.bind_apply, logFatal]
    · cases hc : env.NewClient ⟨cfg.Token⟩ .Reboot cfg.DropletID with
      | error e =>
        simp [Reboot, run, h0, hd, hc, Prog.bind_apply, Prog.pure_apply, logFatal, invoke]
      | ok a =>
        cases hl : cfg.Log with
        | false =>
          simp [Reboot, run, h0, hd, hc, hl, Prog.bind_apply, Prog.pure_apply, invoke, Println]
        | true =>
          cases hm : env.jsonMarshal a <;>
            simp [Reboot, run, h0, hd, hc, hl, hm, Prog.bind_apply, Prog.pure_apply, logFatal,
              invoke, Println, WriteOutput]
  · cases hc : env.NewClient ⟨cfg.Token⟩ .Reboot (Atoi arg).1 with
    | error e =>
      simp [Reboot, run, h0, hc, Prog.bind_apply, Prog.pure_apply, logFatal, invoke]
    | ok a =>
      cases hl : cfg.Log with
      | false =>
        simp [Reboot, run, h0, hc, hl, Prog.bind_apply, Prog.pure_apply, invoke, Println]
      | true =>
        cases hm : env.jsonMarshal a <;>
          simp [Reboot, run, h0, hc, hl, hm, Prog.bind_apply, Prog.pure_apply, logFatal,
            invoke, Println, WriteOutput]

/-- Every run of `Shutdown`, by cases on the resolved ID, the API response, `config.Log`
and the JSON encoder. -/
theorem Shutdown_run (env : Env Action) (arg : String) (cfg : tomlConfig) :
    run (Shutdown env arg cfg) =
      match resolvedID arg cfg with
      | none => ⟨[], "", some "No Droplet ID provided in Config! Use Parameters."⟩
      | some id =>
        match env.NewClient ⟨cfg.Token⟩ .Shutdown id with
        | .error e => ⟨[⟨.Shutdown, id⟩], "", some e⟩
        | .ok a =>
          if cfg.Log then
            match env.jsonMarshal a with
            | .error e => ⟨[⟨.Shutdown, id⟩], "", some ("JSON Encoding Error: " ++ e)⟩
            | .ok out => ⟨[⟨.Shutdown, id⟩], out ++ "\n", none⟩
          else
            ⟨[⟨.Shutdown, id⟩], "Shutdown the system. The action could take a few moments.\n", none⟩ := by
  unfold resolvedID
  by_cases h0 : (Atoi arg).1 = 0
  · by_cases hd : cfg.DropletID = 0
    · simp [Shutdown, run, h0, hd, Prog.bind_apply, logFatal]
    · cases hc : env.NewClient ⟨cfg.Token⟩ .Shutdown cfg.DropletID with
      | error e =>
        simp [Shutdown, run, h0, hd, hc, Prog.bind_apply, Prog.pure_apply, logFatal, invoke]
      | ok a =>
        cases hl : cfg.Log with
        | false =>
          simp [Shutdown, run, h0, hd, hc, hl, Prog.bind_apply, Prog.pure_apply, invoke, Println]
        | true =>
          cases hm : env.jsonMarshal a <;>
            simp [Shutdown, run, h0, hd, hc, hl, hm, Prog.bind_apply, Prog.pure_apply, logFatal,
              invoke, Println, WriteOutput]
  · cases hc : env.NewClient ⟨cfg.Token⟩ .Shutdown (Atoi arg).1 with
    | error e =>
      simp [Shutdown, run, h0, hc, Prog.bind_apply, Prog.pure_apply, logFatal, invoke]
    | ok a =>
      cases hl : cfg.Log with
      | false =>
        simp [Shutdown, run, h0, hc, hl, Prog.bind_apply, Prog.pure_apply, invoke, Println]
      | true =>
        cases hm : env.jsonMarshal a <;>
          simp [Shutdown, run, h0, hc, hl, hm, Prog.bind_apply, Prog.pure_apply, logFatal,
            invoke, Println, WriteOutput]

/-- Every run of `Cycle`, by cases on the resolved ID, the API response, `config.Log`
and the JSON encoder. -/
theorem Cycle_run (env : Env Action) (arg : String) (cfg : tomlConfig) :
    run (Cycle env arg cfg) =
      match resolvedID arg cfg with
      | none => ⟨[], "", some "No Droplet ID provided in Config! Use Parameters."⟩
      | some id =>
        match env.NewClient ⟨cfg.Token⟩ .PowerCycle id with
        | .error e => ⟨[⟨.PowerCycle, id⟩], "", some e⟩
        | .ok a =>
          if cfg.Log then
            match env.jsonMarshal a with
            | .error e => ⟨[⟨.PowerCycle, id⟩], "", some ("JSON Encoding Error: " ++ e)⟩
            | .ok out => ⟨[⟨.PowerCycle, id⟩], out ++ "\n", none⟩
          else
            ⟨[⟨.PowerCycle, id⟩], "Shutdown the system forcefully. The action could take a few moments.\n", none⟩ := by
  unfold resolvedID
  by_cases h0 : (Atoi arg).1 = 0
  · by_cases hd : cfg.DropletID = 0
    · simp [Cycle, run, h0, hd, Prog.bind_apply, logFatal]
    · cases hc : env.NewClient ⟨cfg.Token⟩ .PowerCycle cfg.DropletID with
      | error e =>
        simp [Cycle, run, h0, hd, hc, Prog.bind_apply, Prog.pure_apply, logFatal, invoke]
      | ok a =>
        cases hl : cfg.Log with
        | false =>
          simp [Cycle, run, h0, hd, hc, hl, Prog.bind_apply, Prog.pure_apply, invoke, Println]
        | true =>
          cases hm : env.jsonMarshal a <;>
            simp [Cycle, run, h0, hd, hc, hl, hm, Prog.bind_apply, Prog.pure_apply, logFatal,
              invoke, Println, WriteOutput]
  · cases hc : env.NewClient ⟨cfg.Token⟩ .PowerCycle (Atoi arg).1 with
    | error e =>
      simp [Cycle, run, h0, hc, Prog.bind_apply, Prog.pure_apply, logFatal, invoke]
    | ok a =>
      cases hl : cfg.Log with
      | false =>
        simp [Cycle, run, h0, hc, hl, Prog.bind_apply, Prog.pure_apply, invoke, Println]
      | true =>
        cases hm : env.jsonMarshal a <;>
          simp [Cycle, run, h0, hc, hl, hm, Prog.bind_apply, Prog.pure_apply, logFatal,
            invoke, Println, WriteOutput]

/-- Every run of `Status`, by cases on the resolved ID and the API response. -/
theorem Status_run (env : Env Action) (arg : String) (cfg : tomlConfig) :
    run (Status env arg cfg) =
      match resolvedID arg cfg with
      | none => ⟨[], "", some "No Droplet ID provided in Config! Use Parameters."⟩
      | some id =>
        if id < 1 then ⟨[], "", some "missing droplet id"⟩
        else
          match env.NewClient ⟨cfg.Token⟩ .Get id with
          | .error e => ⟨[⟨.Get, id⟩], "", some e⟩
          | .ok d => ⟨[⟨.Get, id⟩], statusTable d, none⟩ := by
  unfold resolvedID
  by_cases h0 : (Atoi arg).1 = 0
  · by_cases hd : cfg.DropletID = 0
    · simp [Status, run, h0, hd, Prog.bind_apply, logFatal]
    · by_cases h1 : cfg.DropletID < 1
      · simp [Status, getDropletByID, run, h0, hd, h1, Prog.bind_apply, Prog.pure_apply, logFatal]
      · cases hc : env.NewClient ⟨cfg.Token⟩ .Get cfg.DropletID <;>
          simp [Status, getDropletByID, run, h0, hd, h1, hc, Prog.bind_apply, Prog.pure_apply,
            logFatal, invoke, writeStdout]
  · by_cases h1 : (Atoi arg).1 < 1
    · simp [Status, getDropletByID, run, h0, h1, Prog.bind_apply, Prog.pure_apply, logFatal]
    · cases hc : env.NewClient ⟨cfg.Token⟩ .Get (Atoi arg).1 <;>
        simp [Status, getDropletByID, run, h0, h1, hc, Prog.bind_apply, Prog.pure_apply,
          logFatal, invoke, writeStdout]

end Runs


/-! ## Consequences for all handlers -/

section Consequences

variable {Action : Type}

/-- Once the ID has resolved (and, for `status`, is at least 1), the handler makes
exactly one API call: its own method on the resolved ID. -/
theorem calls_of_resolved (cmd : Cmd) (env : Env Action) (arg : String) (cfg : tomlConfig)
    (id : Int) (hid : resolvedID arg cfg = some id) (hst : cmd = .status → 1 ≤ id) :
    (run (cmd.handler env arg cfg)).calls = [⟨cmd.method, id⟩] := by
  cases cmd
  case status =>
    have h1 : ¬ id < 1 := by have := hst rfl; omega
    simp only [Cmd.handler, Cmd.method, Status_run, hid, h1, if_false]
    cases env.NewClient ⟨cfg.Token⟩ .Get id <;> rfl
  all_goals
    simp only [Cmd.handler, Cmd.method, PowerOn_run, Reboot_run, Shutdown_run, Cycle_run, hid]
    cases env.NewClient ⟨cfg.Token⟩ _ id with
    | error e => rfl
    | ok a =>
      cases cfg.Log with
      | false => rfl
      | true => cases hm : env.jsonMarshal a <;> simp [hm]

/-- When no ID resolves, the handler ends in `log.Fatal` before any effect. -/
theorem run_of_unresolved (cmd : Cmd) (env : Env Action) (arg : String) (cfg : tomlConfig)
    (hid : resolvedID arg cfg = none) :
    run (cmd.handler env arg cfg) =
      ⟨[], "", some "No Droplet ID provided in Config! Use Parameters."⟩ := by
  cases cmd <;>
    simp only [Cmd.handler, PowerOn_run, Reboot_run, Shutdown_run, Cycle_run, Status_run, hid]

/-- When the API call fails, the handler ends in `log.Fatal` with the error. -/
theorem run_of_api_error (cmd : Cmd) (env : Env Action) (arg : String) (cfg : tomlConfig)
    (id : Int) (e : String) (hid : resolvedID arg cfg = some id) (hst : cmd = .status → 1 ≤ id)
    (herr : env.NewClient ⟨cfg.Token⟩ cmd.method id = .error e) :
    run (cmd.handler env arg cfg) = ⟨[⟨cmd.method, id⟩], "", some e⟩ := by
  cases cmd
  case status =>
    have h1 : ¬ id < 1 := by have := hst rfl; omega
    simp only [Cmd.method] at herr
    simp only [Cmd.handler, Cmd.method, Status_run, hid, h1, if_false, herr]
  all_goals
    simp only [Cmd.method] at herr
    simp only [Cmd.handler, Cmd.method, PowerOn_run, Reboot_run, Shutdown_run, Cycle_run, hid,
      herr]

end Consequences

/-! ## `strconv.Atoi`: a syntax error comes with the value 0 -/

theorem ParseInt_syntax_zero (b : List Nat) (bitSize : Nat)
    (h : (ParseInt b bitSize).2 = some .ErrSyntax) : (ParseInt b bitSize).1 = 0 := by
  unfold ParseInt at h ⊢
  cases b with
  | nil => rfl
  | cons c0 rest =>
    simp only at h ⊢
    generalize ParseUint (if c0 = 43 then rest else if c0 = 45 then rest else c0 :: rest)
      bitSize = r at h ⊢
    obtain ⟨un, err⟩ := r
    simp only at h ⊢
    split_ifs at h ⊢ <;> simp_all

theorem Atoi_syntax_zero (s : String) (h : (Atoi s).2 = some .ErrSyntax) :
    (Atoi s).1 = 0 := by
  unfold Atoi at h ⊢
  simp only at h ⊢
  split_ifs at h ⊢ with hfast
  · cases hb : goBytes s with
    | nil => rfl
    | cons c0 rest =>
      rw [hb] at h
      simp only at h ⊢
      generalize Atoi.fast (if c0 = 45 ∨ c0 = 43 then rest else c0 :: rest) 0 = r at h ⊢
      split_ifs at h ⊢ <;> cases r <;> simp_all
  · exact ParseInt_syntax_zero _ _ h

/-! ## The text of the status table -/

theorem digitChar_plain (k : Nat) (hk : k < 10) : Plain (Nat.digitChar k) := by
  unfold Plain
  interval_cases k <;> decide

theorem toDigitsCore_plain (fuel : Nat) : ∀ (n : Nat) (ds : List Char),
    (∀ c ∈ ds, Plain c) → ∀ c ∈ Nat.toDigitsCore 10 fuel n ds, Plain c := by
  induction fuel with
  | zero => intro n ds hds; simpa [Nat.toDigitsCore] using hds
  | succ fuel ih =>
    intro n ds hds
    have hd : Plain (Nat.digitChar (n % 10)) := digitChar_plain _ (Nat.mod_lt _ (by decide))
    have hcons : ∀ c ∈ Nat.digitChar (n % 10) :: ds, Plain c := by
      intro c hc
      rcases List.mem_cons.mp hc with rfl | hc
      · exact hd
      · exact hds c hc
    simp only [Nat.toDigitsCore]
    split_ifs
    · exact hcons
    · exact ih _ _ hcons

theorem natRepr_plain (n : Nat) : ∀ c ∈ (Nat.repr n).toList, Plain c := by
  intro c hc
  exact toDigitsCore_plain _ _ [] (by simp) c hc

/-- The decimal text of an `int` has no newline and no tab. -/
theorem intToString_plain (n : Int) : ∀ c ∈ (toString n).toList, Plain c := by
  cases n with
  | ofNat m => exact natRepr_plain m
  | negSucc m =>
    intro c hc
    have hneg : toString (Int.negSucc m) = "-" ++ Nat.repr (m + 1) := rfl
    rw [hneg] at hc
    simp at hc
    rcases hc with rfl | hc
    · unfold Plain; decide
    · exact natRepr_plain _ c hc

open tabwriter

theorem Writer.append_nil (b : Writer) : b.append [] = b := by
  cases b; simp [Writer.append]

theorem Writer.append_append (b : Writer) (xs ys : List Char) :
    (b.append xs).append ys = b.append (xs ++ ys) := by
  simp [Writer.append, Nat.add_assoc]

theorem Writer.step_plain (b : Writer) (c : Char) (hc : Plain c) :
    Writer.Write.step b c = b.append [c] := by
  obtain ⟨h1, h2, h3, h4⟩ := hc
  simp [Writer.Write.step, h1, h2, h3, h4]

theorem Writer.foldl_step_plain (t : List Char) : ∀ (b : Writer), (∀ c ∈ t, Plain c) →
    t.foldl Writer.Write.step b = b.append t := by
  induction t with
  | nil => intro b _; simp [Writer.append_nil]
  | cons c cs ih =>
    intro b h
    rw [List.foldl_cons, Writer.step_plain b c (h c (List.mem_cons_self _ _)),
      ih _ (fun x hx => h x (List.mem_cons_of_mem _ hx)), Writer.append_append]
    rfl

theorem header_state :
    (Writer.Init 0 8 3).Write ("ID\tName\tStatus\t" ++ "\n") =
      { minwidth := 0, tabwidth := 8, padding := 3, buf := ['I', 'D', 'N', 'a', 'm', 'e', 'S', 't', 'a', 't', 'u', 's'],
        pos := 12,
        cell := ⟨0, 0, false⟩,
        lines := [[⟨2, 2, true⟩, ⟨4, 4, true⟩, ⟨6, 6, true⟩, ⟨0, 0, false⟩], []],
        widths := [], output := [] } := by
  decide

theorem data_state (idc nm st : List Char) (hid : ∀ c ∈ idc, Plain c)
    (hn : ∀ c ∈ nm, Plain c) (hs : ∀ c ∈ st, Plain c) :
    (idc ++ '\t' :: (nm ++ '\t' :: (st ++ ['\n']))).foldl Writer.Write.step
      { minwidth := 0, tabwidth := 8, padding := 3, buf := ['I', 'D', 'N', 'a', 'm', 'e', 'S', 't', 'a', 't', 'u', 's'],
        pos := 12,
        cell := ⟨0, 0, false⟩,
        lines := [[⟨2, 2, true⟩, ⟨4, 4, true⟩, ⟨6, 6, true⟩, ⟨0, 0, false⟩], []],
        widths := [], output := [] } =
      tableState (['I', 'D', 'N', 'a', 'm', 'e', 'S', 't', 'a', 't', 'u', 's'] ++ idc ++ nm ++ st) idc.length nm.length st.length
        (12 + idc.length + nm.length + st.length) [] [] := by
  simp only [List.foldl_append, List.foldl_cons, List.foldl_nil, Writer.foldl_step_plain _ _ hid,
    Writer.foldl_step_plain _ _ hn, Writer.foldl_step_plain _ _ hs]
  simp [Writer.Write.step, Writer.append, Writer.updateWidth, Writer.terminateCell, Writer.addLine, tableState]
  omega

theorem tableState_widths (B : List Char) (a n s p0 : Nat) (ws : List Nat) (out : List Char) :
    (tableState B a n s p0 ws out).widths = ws := rfl
theorem tableState_buf (B : List Char) (a n s p0 : Nat) (ws : List Nat) (out : List Char) :
    (tableState B a n s p0 ws out).buf = B := rfl
theorem tableState_cell (B : List Char) (a n s p0 : Nat) (ws : List Nat) (out : List Char) :
    (tableState B a n s p0 ws out).cell = ⟨0, 0, false⟩ := rfl
theorem tableState_minwidth (B : List Char) (a n s p0 : Nat) (ws : List Nat) (out : List Char) :
    (tableState B a n s p0 ws out).minwidth = 0 := rfl
theorem tableState_lines (B : List Char) (a n s p0 : Nat) (ws : List Nat) (out : List Char) :
    (tableState B a n s p0 ws out).lines = [[⟨2, 2, true⟩, ⟨4, 4, true⟩, ⟨6, 6, true⟩, ⟨0, 0, false⟩],
          [⟨a, a, true⟩, ⟨n, n, true⟩, ⟨s, s, false⟩], []] := rfl
theorem tableState_pushWidth (B : List Char) (a n s p0 : Nat) (ws : List Nat) (w : Nat)
    (out : List Char) : (tableState B a n s p0 ws out).pushWidth w = tableState B a n s p0 (ws ++ [w]) out := rfl
theorem tableState_popWidth (B : List Char) (a n s p0 : Nat) (ws : List Nat)
    (out : List Char) : (tableState B a n s p0 ws out).popWidth = tableState B a n s p0 ws.dropLast out := rfl

theorem block0 (B : List Char) (a n s p0 : Nat) (ws : List Nat) (out : List Char) :
    Writer.format.block (tableState B a n s p0 ws out) 0 3 3 0 0 = (2, max 5 (a + 3)) := by
  simp only [Writer.format.block, tableState, List.getD_cons_zero, List.getD_cons_succ, List.length]
  simp [Nat.max_def]
  split_ifs <;> omega

theorem block1 (B : List Char) (a n s p0 : Nat) (ws : List Nat) (out : List Char) :
    Writer.format.block (tableState B a n s p0 ws out) 1 2 2 0 0 = (2, max 7 (n + 3)) := by
  simp only [Writer.format.block, tableState, List.getD_cons_zero, List.getD_cons_succ, List.length]
  simp [Nat.max_def]
  split_ifs <;> omega

theorem block2 (B : List Char) (a n s p0 : Nat) (ws : List Nat) (out : List Char) :
    Writer.format.block (tableState B a n s p0 ws out) 2 2 2 0 0 = (1, 9) := by
  simp only [Writer.format.block, tableState, List.getD_cons_zero, List.getD_cons_succ, List.length]
  simp

theorem tableState_writePadding (B : List Char) (a n s p0 : Nat) (ws : List Nat) (out : List Char)
    (textw cellw : Nat) :
    (tableState B a n s p0 ws out).writePadding textw cellw =
      tableState B a n s p0 ws (out ++ List.replicate (tabsN textw cellw) '\t') := by
  simp [Writer.writePadding, Writer.writeN, Writer.write0, tableState, tabsN]

theorem tableState_write0 (B : List Char) (a n s p0 : Nat) (ws : List Nat) (out t : List Char) :
    (tableState B a n s p0 ws out).write0 t = tableState B a n s p0 ws (out ++ t) := by
  simp [Writer.write0, tableState]

theorem Writer.write0_nil (b : Writer) : b.write0 [] = b := by
  cases b; simp [Writer.write0]

theorem Writer.writeCells_nil (b : Writer) (j pos : Nat) :
    Writer.writeCells b [] j pos = (b, pos) := rfl

theorem Writer.writeCells_cons (b : Writer) (c : tabwriter.cell) (cs : List tabwriter.cell)
    (j pos : Nat) :
    Writer.writeCells b (c :: cs) j pos =
      Writer.writeCells
        (if j < b.widths.length then
          (b.write0 ((b.buf.drop pos).take c.size)).writePadding c.width (b.widths.getD j 0)
         else b.write0 ((b.buf.drop pos).take c.size))
        cs (j + 1) (pos + c.size) := by
  by_cases h : c.size = 0
  · simp [Writer.writeCells, h, Writer.write0_nil]
  · simp only [Writer.writeCells, h, if_false]
    rfl

theorem writeCells_header (B : List Char) (a n s p0 w0 w1 w2 : Nat) (out : List Char) :
    Writer.writeCells (tableState B a n s p0 [w0, w1, w2] out)
      [⟨2, 2, true⟩, ⟨4, 4, true⟩, ⟨6, 6, true⟩, ⟨0, 0, false⟩] 0 0 =
      (tableState B a n s p0 [w0, w1, w2]
        (out ++ (B.drop 0).take 2 ++ List.replicate (tabsN 2 w0) '\t' ++
          (B.drop 2).take 4 ++ List.replicate (tabsN 4 w1) '\t' ++
          (B.drop 6).take 6 ++ List.replicate (tabsN 6 w2) '\t'), 12) := by
  simp [Writer.writeCells_cons, Writer.writeCells_nil, tableState_widths, tableState_buf, tableState_write0, tableState_writePadding]

theorem writeCells_data (B : List Char) (a n s p0 w0 w1 p : Nat) (out : List Char) :
    Writer.writeCells (tableState B a n s p0 [w0, w1] out)
      [⟨a, a, true⟩, ⟨n, n, true⟩, ⟨s, s, false⟩] 0 p =
      (tableState B a n s p0 [w0, w1]
        (out ++ (B.drop p).take a ++ List.replicate (tabsN a w0) '\t' ++
          (B.drop (p + a)).take n ++ List.replicate (tabsN n w1) '\t' ++
          (B.drop (p + a + n)).take s), p + a + n + s) := by
  simp [Writer.writeCells_cons, Writer.writeCells_nil, tableState_widths, tableState_buf, tableState_write0, tableState_writePadding]

theorem writeLines_header (B : List Char) (a n s p0 w0 w1 w2 : Nat) (out : List Char) :
    Writer.writeLines (tableState B a n s p0 [w0, w1, w2] out) 0 0 1 =
      (tableState B a n s p0 [w0, w1, w2]
        (out ++ (B.drop 0).take 2 ++ List.replicate (tabsN 2 w0) '\t' ++
          (B.drop 2).take 4 ++ List.replicate (tabsN 4 w1) '\t' ++
          (B.drop 6).take 6 ++ List.replicate (tabsN 6 w2) '\t' ++ ['\n']), 12) := by
  simp only [Writer.writeLines, Writer.writeLines.loop, tableState_lines, List.getD_cons_zero, writeCells_header]
  simp [tableState_lines, tableState_write0]

theorem writeLines_data (B : List Char) (a n s p0 w0 w1 p : Nat) (out : List Char) :
    Writer.writeLines (tableState B a n s p0 [w0, w1] out) p 1 2 =
      (tableState B a n s p0 [w0, w1]
        (out ++ (B.drop p).take a ++ List.replicate (tabsN a w0) '\t' ++
          (B.drop (p + a)).take n ++ List.replicate (tabsN n w1) '\t' ++
          (B.drop (p + a + n)).take s ++ ['\n']), p + a + n + s) := by
  simp only [Writer.writeLines, Writer.writeLines.loop, tableState_lines, List.getD_cons_zero,
    List.getD_cons_succ, writeCells_data]
  simp [tableState_lines, tableState_write0]

theorem writeLines_last (B : List Char) (a n s p0 p : Nat) (ws : List Nat) (out : List Char) :
    Writer.writeLines (tableState B a n s p0 ws out) p 2 3 = (tableState B a n s p0 ws out, p) := by
  simp only [Writer.writeLines, Writer.writeLines.loop, tableState_lines, List.getD_cons_zero,
    List.getD_cons_succ, Writer.writeCells_nil]
  simp [tableState_lines, tableState_cell, tableState_write0]

theorem writeLines_none (b : Writer) (p i : Nat) : Writer.writeLines b p i i = (b, p) := by
  simp [Writer.writeLines, Writer.writeLines.loop]

theorem loop_done (inner : Writer → Nat → Nat → Nat → Writer × Nat) (column line1 n : Nat)
    (b : Writer) (pos line0 this : Nat) (h : ¬ this < line1) :
    Writer.format.loop inner column line1 n b pos line0 this = (b, pos, line0) := by
  cases n
  · rfl
  · rw [Writer.format.loop, if_neg h]

theorem loop_continue (inner : Writer → Nat → Nat → Nat → Writer × Nat) (column line1 n : Nat)
    (b : Writer) (pos line0 this : Nat) (h : this < line1)
    (hc : column + 1 ≥ (b.lines.getD this []).length) :
    Writer.format.loop inner column line1 (n + 1) b pos line0 this =
      Writer.format.loop inner column line1 n b pos line0 (this + 1) := by
  rw [Writer.format.loop, if_pos h, if_pos hc]

theorem loop_block (inner : Writer → Nat → Nat → Nat → Writer × Nat) (column line1 n : Nat)
    (b b1 b2 : Writer) (pos pos1 pos2 line0 this this1 width : Nat) (h : this < line1)
    (hc : ¬ column + 1 ≥ (b.lines.getD this []).length)
    (hw : b.writeLines pos line0 this = (b1, pos1))
    (hb : Writer.format.block b1 column line1 (line1 - this) this b1.minwidth = (this1, width))
    (hi : inner (b1.pushWidth width) pos1 this this1 = (b2, pos2)) :
    Writer.format.loop inner column line1 (n + 1) b pos line0 this =
      Writer.format.loop inner column line1 n b2.popWidth pos2 this1 (this1 + 1) := by
  rw [Writer.format.loop, if_pos h, if_neg hc]
  simp only [hw, hb, hi]

theorem format_succ (depth : Nat) (b b1 : Writer) (pos0 pos1 line0 line1 line01 : Nat)
    (hl : Writer.format.loop (Writer.format depth) b.widths.length line1 (line1 - line0) b pos0
      line0 line0 = (b1, pos1, line01)) :
    Writer.format (depth + 1) b pos0 line0 line1 = b1.writeLines pos1 line01 line1 := by
  rw [Writer.format]
  simp only [hl]

theorem format1 (B : List Char) (a n s p0 w0 w1 w2 : Nat) (out : List Char) :
    Writer.format 1 (tableState B a n s p0 [w0, w1, w2] out) 0 0 1 =
      Writer.writeLines (tableState B a n s p0 [w0, w1, w2] out) 0 0 1 := by
  refine format_succ 0 _ _ 0 0 0 1 0 ?_
  rw [loop_continue _ _ _ _ _ _ _ _ (by decide) (by simp [tableState_lines, tableState_widths])]
  exact loop_done _ _ _ _ _ _ _ _ (by decide)

theorem format2 (B : List Char) (a n s p0 w0 w1 : Nat) (out : List Char) :
    Writer.format 2 (tableState B a n s p0 [w0, w1] out) 0 0 2 =
      (tableState B a n s p0 [w0, w1]
        (out ++ (B.drop 0).take 2 ++ List.replicate (tabsN 2 w0) '\t' ++
          (B.drop 2).take 4 ++ List.replicate (tabsN 4 w1) '\t' ++
          (B.drop 6).take 6 ++ List.replicate (tabsN 6 9) '\t' ++ ['\n'] ++
          (B.drop 12).take a ++ List.replicate (tabsN a w0) '\t' ++
          (B.drop (12 + a)).take n ++ List.replicate (tabsN n w1) '\t' ++
          (B.drop (12 + a + n)).take s ++ ['\n']), 12 + a + n + s) := by
  rw [format_succ 1 _ (tableState B a n s p0 [w0, w1] _) 0 12 0 2 1, writeLines_data]
  show Writer.format.loop (Writer.format 1) 2 2 (1 + 1) (tableState B a n s p0 [w0, w1] out) 0 0 0 = _
  rw [loop_block (Writer.format 1) 2 2 1 _ _ (tableState B a n s p0 [w0, w1, 9] _) 0 0 12 0 0 1 9
    (by decide) (by simp [tableState_lines]) (writeLines_none _ _ _) (block2 _ _ _ _ _ _ _)]
  · exact loop_done _ _ _ _ _ _ _ _ (by decide)
  · rw [tableState_pushWidth]
    exact (format1 _ _ _ _ _ _ _ _ _).trans (writeLines_header _ _ _ _ _ _ _ _ _)

theorem format3 (B : List Char) (a n s p0 w0 : Nat) (out : List Char) :
    Writer.format 3 (tableState B a n s p0 [w0] out) 0 0 2 =
      (tableState B a n s p0 [w0]
        (out ++ (B.drop 0).take 2 ++ List.replicate (tabsN 2 w0) '\t' ++
          (B.drop 2).take 4 ++ List.replicate (tabsN 4 (max 7 (n + 3))) '\t' ++
          (B.drop 6).take 6 ++ List.replicate (tabsN 6 9) '\t' ++ ['\n'] ++
          (B.drop 12).take a ++ List.replicate (tabsN a w0) '\t' ++
          (B.drop (12 + a)).take n ++ List.replicate (tabsN n (max 7 (n + 3))) '\t' ++
          (B.drop (12 + a + n)).take s ++ ['\n']), 12 + a + n + s) := by
  rw [format_succ 2 _ (tableState B a n s p0 [w0] _) 0 (12 + a + n + s) 0 2 2, writeLines_none]
  show Writer.format.loop (Writer.format 2) 1 2 (1 + 1) (tableState B a n s p0 [w0] out) 0 0 0 = _
  rw [loop_block (Writer.format 2) 1 2 1 _ _ (tableState B a n s p0 [w0, max 7 (n + 3)] _) 0 0
      (12 + a + n + s) 0 0 2 (max 7 (n + 3))
      (by decide) (by simp [tableState_lines]) (writeLines_none _ _ _) (block1 _ _ _ _ _ _ _)]
  · exact loop_done _ _ _ _ _ _ _ _ (by decide)
  · rw [tableState_pushWidth]
    exact format2 _ _ _ _ _ _ _ _

theorem format4 (B : List Char) (a n s p0 : Nat) :
    Writer.format 4 (tableState B a n s p0 [] []) 0 0 3 =
      (tableState B a n s p0 []
        ((B.drop 0).take 2 ++ List.replicate (tabsN 2 (max 5 (a + 3))) '\t' ++
          (B.drop 2).take 4 ++ List.replicate (tabsN 4 (max 7 (n + 3))) '\t' ++
          (B.drop 6).take 6 ++ List.replicate (tabsN 6 9) '\t' ++ ['\n'] ++
          (B.drop 12).take a ++ List.replicate (tabsN a (max 5 (a + 3))) '\t' ++
          (B.drop (12 + a)).take n ++ List.replicate (tabsN n (max 7 (n + 3))) '\t' ++
          (B.drop (12 + a + n)).take s ++ ['\n']), 12 + a + n + s) := by
  rw [format_succ 3 _ (tableState B a n s p0 [] _) 0 (12 + a + n + s) 0 3 2, writeLines_last]
  show Writer.format.loop (Writer.format 3) 0 3 (2 + 1) (tableState B a n s p0 [] []) 0 0 0 = _
  rw [loop_block (Writer.format 3) 0 3 2 _ _ (tableState B a n s p0 [max 5 (a + 3)] _) 0 0
      (12 + a + n + s) 0 0 2 (max 5 (a + 3))
      (by decide) (by simp [tableState_lines]) (writeLines_none _ _ _) (block0 _ _ _ _ _ _ _)]
  · exact loop_done _ _ _ _ _ _ _ _ (by decide)
  · rw [tableState_pushWidth]
    simpa using format3 B a n s p0 (max 5 (a + 3)) []

theorem tableState_Flush (B : List Char) (a n s p0 : Nat) :
    (Writer.Flush (tableState B a n s p0 [] [])).output =
        ((B.drop 0).take 2 ++ List.replicate (tabsN 2 (max 5 (a + 3))) '\t' ++
          (B.drop 2).take 4 ++ List.replicate (tabsN 4 (max 7 (n + 3))) '\t' ++
          (B.drop 6).take 6 ++ List.replicate (tabsN 6 9) '\t' ++ ['\n'] ++
          (B.drop 12).take a ++ List.replicate (tabsN a (max 5 (a + 3))) '\t' ++
          (B.drop (12 + a)).take n ++ List.replicate (tabsN n (max 7 (n + 3))) '\t' ++
          (B.drop (12 + a + n)).take s ++ ['\n']) := by
  have hdepth : ((tableState B a n s p0 [] []).lines.map List.length).foldl max 0 = 4 := rfl
  have hcell : ¬ (tableState B a n s p0 [] []).cell.size > 0 := by simp [tableState_cell]
  unfold Writer.Flush Writer.flushNoDefers
  simp only [if_neg hcell, hdepth]
  rw [show (tableState B a n s p0 [] []).lines.length = 3 from rfl, format4]
  rfl

theorem slices (H idc nm st : List Char) (hH : H.length = 12) :
    ((H ++ (idc ++ (nm ++ st))).drop 12).take idc.length = idc ∧
    ((H ++ (idc ++ (nm ++ st))).drop (12 + idc.length)).take nm.length = nm ∧
    ((H ++ (idc ++ (nm ++ st))).drop (12 + idc.length + nm.length)).take st.length = st := by
  rw [← hH]
  refine ⟨by simp, ?_, ?_⟩
  · rw [← List.append_assoc, ← List.length_append]
    simp
  · rw [← List.append_assoc, ← List.append_assoc, ← List.length_append, ← List.length_append]
    simp

theorem table_chars (idc nm st : List Char) (hid : ∀ c ∈ idc, Plain c)
    (hn : ∀ c ∈ nm, Plain c) (hs : ∀ c ∈ st, Plain c) :
    (((Writer.Init 0 8 3).Write ("ID\tName\tStatus\t" ++ "\n")).Write
        (String.mk idc ++ "\t" ++ String.mk nm ++ "\t" ++ String.mk st ++ "\n")).Flush.output =
      ['I', 'D'] ++ List.replicate (tabsN 2 (max 5 (idc.length + 3))) '\t' ++
        ['N', 'a', 'm', 'e'] ++ List.replicate (tabsN 4 (max 7 (nm.length + 3))) '\t' ++
        ['S', 't', 'a', 't', 'u', 's'] ++ List.replicate 2 '\t' ++ ['\n'] ++
        idc ++ List.replicate (tabsN idc.length (max 5 (idc.length + 3))) '\t' ++
        nm ++ List.replicate (tabsN nm.length (max 7 (nm.length + 3))) '\t' ++
        st ++ ['\n'] := by
  have htext : (String.mk idc ++ "\t" ++ String.mk nm ++ "\t" ++ String.mk st ++ "\n").toList =
      idc ++ '\t' :: (nm ++ '\t' :: (st ++ ['\n'])) := by simp
  rw [header_state]
  unfold Writer.Write
  rw [htext, data_state idc nm st hid hn hs, tableState_Flush]
  obtain ⟨h1, h2, h3⟩ :=
    slices ['I', 'D', 'N', 'a', 'm', 'e', 'S', 't', 'a', 't', 'u', 's'] idc nm st rfl
  simp only [List.append_assoc]
  rw [h1, h2, h3]
  rfl


theorem tabsN_pos (textw cellw : Nat) (h : textw < cellw) : 0 < tabsN textw cellw := by
  unfold tabsN
  omega

/-- The table of a droplet whose name and status hold no tab, vertical tab, newline or
form feed, with the number of tabs after every cell. -/
theorem statusTable_eq (d : Droplet) (hn : ∀ c ∈ d.Name.toList, Plain c)
    (hs : ∀ c ∈ d.Status.toList, Plain c) :
    statusTable d =
      headerLine (tabsN 2 (max 5 ((toString d.ID).length + 3)))
          (tabsN 4 (max 7 (d.Name.length + 3))) 2 ++ "\n" ++
        dataLine d (tabsN (toString d.ID).length (max 5 ((toString d.ID).length + 3)))
          (tabsN d.Name.length (max 7 (d.Name.length + 3))) ++ "\n" := by
  have h := table_chars (toString d.ID).toList d.Name.toList d.Status.toList
    (intToString_plain d.ID) hn hs
  apply String.ext
  show (((Writer.Init 0 8 3).Write ("ID\tName\tStatus\t" ++ "\n")).Write
        (String.mk (toString d.ID).toList ++ "\t" ++ String.mk d.Name.toList ++ "\t" ++
          String.mk d.Status.toList ++ "\n")).Flush.output = _
  rw [h]
  simp only [headerLine, dataLine, tabs, String.data_append, List.append_assoc]
  rfl

theorem textLines_two (h d : String) (hh : '\n' ∉ h.toList) (hd : '\n' ∉ d.toList) :
    textLines (h ++ "\n" ++ d ++ "\n") = [h.toList, d.toList] := by
  have hsplit : (h ++ "\n" ++ d ++ "\n").toList.splitOn '\n' = [h.toList, d.toList, []] := by
    have hl : (h ++ "\n" ++ d ++ "\n").toList = ['\n'].intercalate [h.toList, d.toList, []] := by
      simp [List.intercalate]
    rw [hl]
    apply List.splitOn_intercalate
    · intro l hl
      simp only [List.mem_cons, List.mem_singleton, List.not_mem_nil, or_false] at hl
      rcases hl with rfl | rfl | rfl
      · exact hh
      · exact hd
      · simp
    · simp
  unfold textLines
  simp only [hsplit]
  rfl

theorem headerLine_no_newline (k1 k2 k3 : Nat) : '\n' ∉ (headerLine k1 k2 k3).toList := by
  simp [headerLine, tabs, List.mem_replicate]

theorem dataLine_no_newline (d : Droplet) (j1 j2 : Nat) (hn : ∀ c ∈ d.Name.toList, Plain c)
    (hs : ∀ c ∈ d.Status.toList, Plain c) : '\n' ∉ (dataLine d j1 j2).toList := by
  intro hmem
  simp only [dataLine, tabs, String.toList, String.data_append, List.mem_append,
    List.mem_replicate] at hmem
  rcases hmem with (((h | h) | h) | h) | h
  · exact (intToString_plain d.ID _ h).2.2.1 rfl
  · exact absurd h.2 (by decide)
  · exact (hn _ h).2.2.1 rfl
  · exact absurd h.2 (by decide)
  · exact (hs _ h).2.2.1 rfl

/-- The example of the documentation of `text/tabwriter` (`ExampleWriter_Init`, first
part): tab stop 8, padding 0, padded with tabs. -/
theorem tabwriter_documented_example :
    String.mk ((((Writer.Init 0 8 0).Write "a\tb\tc\td\t.\n").Write
      "123\t12345\t1234567\t123456789\t.\n").Write "\n").Flush.output =
      "a\tb\tc\td\t\t.\n123\t12345\t1234567\t123456789\t.\n\n" := by
  decide

/-! ## The claims of the specification -/

/-- C1. For each of the five handlers, for every argument string that `strconv.Atoi`
parses without error to a positive `n`, and for every config whatever its `DropletID`,
if the API returns success then the handler makes exactly one API call, the one of its
corresponding method (`on` calls `DropletActions.PowerOn`, `shutdown` calls
`DropletActions.Shutdown`, `cycle` calls `DropletActions.PowerCycle`, `reboot` calls
`DropletActions.Reboot`, `status` calls `Droplets.Get`), and passes it exactly `n`. -/
theorem C1_explicit_argument_passed_unchanged {Action : Type} (cmd : Cmd) (env : Env Action)
    (arg : String) (cfg : tomlConfig) (n : Int) (r : cmd.method.Resp Action)
    (hparse : Atoi arg = (n, none)) (hpos : 0 < n)
    (_hok : env.NewClient ⟨cfg.Token⟩ cmd.method n = .ok r) :
    (run (cmd.handler env arg cfg)).calls = [⟨cmd.method, n⟩] := by
  have h0 : (Atoi arg).1 ≠ 0 := by rw [hparse]; exact ne_of_gt hpos
  have hid : resolvedID arg cfg = some n := by rw [resolvedID_of_parsed h0, hparse]
  exact calls_of_resolved cmd env arg cfg n hid (fun _ => by omega)

theorem C1_witness :
    Atoi "42" = (42, none) ∧
      (run (Cmd.status.handler mockOk "42" ⟨"tok", false, 7⟩)).calls = [⟨.Get, 42⟩] :=
  ⟨by decide,
    C1_explicit_argument_passed_unchanged Cmd.status mockOk "42" ⟨"tok", false, 7⟩ 42
      ⟨7, "web", "active"⟩ (by decide) (by decide) rfl⟩

/-- C2, as the code has it. For every argument string that `strconv.Atoi` parses to
zero and every config whose `DropletID` is a positive default `d`, each of the five
handlers falls back to the config default: the ID it passes to the API is `d`. -/
theorem C2_zero_argument_falls_back {Action : Type} (cmd : Cmd) (env : Env Action)
    (arg : String) (cfg : tomlConfig) (hparse : Atoi arg = (0, none))
    (hd : 0 < cfg.DropletID) :
    (run (cmd.handler env arg cfg)).calls = [⟨cmd.method, cfg.DropletID⟩] := by
  have h0 : (Atoi arg).1 = 0 := by rw [hparse]
  have hid : resolvedID arg cfg = some cfg.DropletID :=
    resolvedID_of_default h0 (ne_of_gt hd)
  exact calls_of_resolved cmd env arg cfg _ hid (fun _ => by omega)

theorem C2_witness :
    Atoi "0" = (0, none) ∧
      (run (Cmd.reboot.handler mockOk "0" ⟨"tok", false, 7⟩)).calls = [⟨.Reboot, 7⟩] :=
  ⟨by decide,
    C2_zero_argument_falls_back Cmd.reboot mockOk "0" ⟨"tok", false, 7⟩ (by decide)
      (by decide)⟩

/-- C2 as stated fails: `"-5"` parses to the non-positive value `-5`, the config default
is `7`, and `PowerOn` passes `-5` to the API, while `Status` stops at
`missing droplet id`. Neither passes the default. -/
theorem C2_negative_argument_not_replaced :
    Atoi "-5" = (-5, none) ∧
      (run (PowerOn mockOk "-5" ⟨"tok", false, 7⟩)).calls = [⟨.PowerOn, -5⟩] ∧
      (run (PowerOn mockOk "-5" ⟨"tok", false, 7⟩)).calls ≠ [⟨.PowerOn, 7⟩] ∧
      run (Status mockOk "-5" ⟨"tok", false, 7⟩) = ⟨[], "", some "missing droplet id"⟩ := by
  decide

/-- C3, as the code has it. For every argument string that `strconv.Atoi` rejects with
a syntax error (the empty string, text that is not a number) and every config whose
`DropletID` is a positive default `d`, each of the five handlers falls back to the
config default: the ID it passes to the API is `d`. -/
theorem C3_syntax_error_falls_back {Action : Type} (cmd : Cmd) (env : Env Action)
    (arg : String) (cfg : tomlConfig) (hparse : (Atoi arg).2 = some .ErrSyntax)
    (hd : 0 < cfg.DropletID) :
    (run (cmd.handler env arg cfg)).calls = [⟨cmd.method, cfg.DropletID⟩] := by
  have hid : resolvedID arg cfg = some cfg.DropletID :=
    resolvedID_of_default (Atoi_syntax_zero arg hparse) (ne_of_gt hd)
  exact calls_of_resolved cmd env arg cfg _ hid (fun _ => by omega)

theorem C3_witness :
    (Atoi "web-1").2 = some .ErrSyntax ∧ (Atoi "").2 = some .ErrSyntax ∧
      (run (Cmd.shutdown.handler mockOk "web-1" ⟨"tok", false, 7⟩)).calls = [⟨.Shutdown, 7⟩] :=
  ⟨by decide, by decide,
    C3_syntax_error_falls_back Cmd.shutdown mockOk "web-1" ⟨"tok", false, 7⟩ (by decide)
      (by decide)⟩

/-- C3 as stated fails: on the digit string `9223372036854775808`, too large for an
`int`, `strconv.Atoi` fails with a range error and returns the largest `int`; the
config default is `7`, and `PowerOn` passes the largest `int` to the API. -/
theorem C3_out_of_range_argument_not_replaced :
    Atoi "9223372036854775808" = (9223372036854775807, some .ErrRange) ∧
      (run (PowerOn mockOk "9223372036854775808" ⟨"tok", false, 7⟩)).calls =
        [⟨.PowerOn, 9223372036854775807⟩] ∧
      (run (PowerOn mockOk "9223372036854775808" ⟨"tok", false, 7⟩)).calls ≠
        [⟨.PowerOn, 7⟩] := by
  decide

/-- C4, as the code has it. For every argument string that `strconv.Atoi` rejects with
a syntax error or parses to zero, and every config with no default ID (`DropletID = 0`),
each of the five handlers terminates fatally with the message
`No Droplet ID provided in Config! Use Parameters.`, makes no API call and writes
nothing to standard output. -/
theorem C4_no_id_is_fatal {Action : Type} (cmd : Cmd) (env : Env Action) (arg : String)
    (cfg : tomlConfig)
    (harg : (Atoi arg).2 = some .ErrSyntax ∨ Atoi arg = (0, none))
    (hcfg : cfg.DropletID = 0) :
    run (cmd.handler env arg cfg) =
      ⟨[], "", some "No Droplet ID provided in Config! Use Parameters."⟩ := by
  have h0 : (Atoi arg).1 = 0 := by
    rcases harg with h | h
    · exact Atoi_syntax_zero arg h
    · rw [h]
  exact run_of_unresolved cmd env arg cfg (resolvedID_none h0 hcfg)

theorem C4_witness :
    (Atoi "").2 = some .ErrSyntax ∧
      run (Cmd.cycle.handler mockOk "" ⟨"tok", true, 0⟩) =
        ⟨[], "", some "No Droplet ID provided in Config! Use Parameters."⟩ :=
  ⟨by decide,
    C4_no_id_is_fatal Cmd.cycle mockOk "" ⟨"tok", true, 0⟩ (Or.inl (by decide)) rfl⟩

/-- C4 as stated fails: `"-5"` parses to the non-positive value `-5`, the config has no
default ID, and `PowerOn` calls the API on `-5` and prints its sentence instead of
terminating with the message. `Status` terminates with another message. -/
theorem C4_negative_argument_reaches_api :
    Atoi "-5" = (-5, none) ∧
      run (PowerOn mockOk "-5" ⟨"tok", false, 0⟩) =
        ⟨[⟨.PowerOn, -5⟩], "PowerOn the system. The action could take a few moments.\n",
          none⟩ ∧
      run (PowerOn mockOk "-5" ⟨"tok", false, 0⟩) ≠
        ⟨[], "", some "No Droplet ID provided in Config! Use Parameters."⟩ ∧
      run (Status mockOk "-5" ⟨"tok", false, 0⟩) = ⟨[], "", some "missing droplet id"⟩ := by
  decide

/-- C5. For each of the four action handlers (`PowerOn`, `Reboot`, `Shutdown`, `Cycle`),
whenever `config.Log` is false and the API call succeeds, standard output is exactly one
sentence followed by a newline, and the sentence is a function of the command alone: it
is the same for every API layer, argument, token, resolved ID and API result. For
`PowerOn` it is `PowerOn the system. The action could take a few moments.` -/
theorem C5_quiet_output_is_fixed_sentence :
    ∃ sentence : Cmd → String,
      sentence .on = "PowerOn the system. The action could take a few moments." ∧
      ∀ (Action : Type) (cmd : Cmd) (env : Env Action) (arg : String) (cfg : tomlConfig)
        (id : Int) (a : cmd.method.Resp Action),
        cmd ≠ .status → cfg.Log = false → resolvedID arg cfg = some id →
        env.NewClient ⟨cfg.Token⟩ cmd.method id = .ok a →
        run (cmd.handler env arg cfg) = ⟨[⟨cmd.method, id⟩], sentence cmd ++ "\n", none⟩ := by
  refine ⟨fun cmd => match cmd with
    | .on => "PowerOn the system. The action could take a few moments."
    | .reboot => "Reboot the system. The action could take a few moments."
    | .shutdown => "Shutdown the system. The action could take a few moments."
    | .cycle => "Shutdown the system forcefully. The action could take a few moments."
    | .status => "", rfl, ?_⟩
  intro Action cmd env arg cfg id a hcmd hlog hid hok
  cases cmd
  case status => exact absurd rfl hcmd
  all_goals
    simp only [Cmd.method] at hok
    simp only [Cmd.handler, Cmd.method, PowerOn_run, Reboot_run, Shutdown_run, Cycle_run, hid,
      hok, hlog]
    rfl

theorem C5_witness :
    run (Cmd.on.handler mockOk "42" ⟨"tok", false, 7⟩) =
      ⟨[⟨.PowerOn, 42⟩], "PowerOn the system. The action could take a few moments." ++ "\n",
        none⟩ := by
  obtain ⟨sentence, hon, h⟩ := C5_quiet_output_is_fixed_sentence
  have hrun := h Int Cmd.on mockOk "42" ⟨"tok", false, 7⟩ 42 (42 : Int) (by decide) rfl
    (by decide) rfl
  rw [hon] at hrun
  exact hrun

/-- C6. For each of the four action handlers (`PowerOn`, `Reboot`, `Shutdown`, `Cycle`),
whenever `config.Log` is true and the API call succeeds with action result `a`, whose
JSON serialization is `json`, standard output is exactly `json` followed by a newline:
the confirmation sentence is not printed. -/
theorem C6_verbose_output_is_json {Action : Type} (env : Env Action) (arg : String)
    (cfg : tomlConfig) (id : Int) (a : Action) (json : String)
    (hlog : cfg.Log = true) (hid : resolvedID arg cfg = some id)
    (hjson : env.jsonMarshal a = .ok json) :
    (env.NewClient ⟨cfg.Token⟩ .PowerOn id = .ok a →
        run (PowerOn env arg cfg) = ⟨[⟨.PowerOn, id⟩], json ++ "\n", none⟩) ∧
      (env.NewClient ⟨cfg.Token⟩ .Reboot id = .ok a →
        run (Reboot env arg cfg) = ⟨[⟨.Reboot, id⟩], json ++ "\n", none⟩) ∧
      (env.NewClient ⟨cfg.Token⟩ .Shutdown id = .ok a →
        run (Shutdown env arg cfg) = ⟨[⟨.Shutdown, id⟩], json ++ "\n", none⟩) ∧
      (env.NewClient ⟨cfg.Token⟩ .PowerCycle id = .ok a →
        run (Cycle env arg cfg) = ⟨[⟨.PowerCycle, id⟩], json ++ "\n", none⟩) := by
  refine ⟨fun hok => ?_, fun hok => ?_, fun hok => ?_, fun hok => ?_⟩
  · simp only [PowerOn_run, hid, hok, hlog, hjson, if_true]
  · simp only [Reboot_run, hid, hok, hlog, hjson, if_true]
  · simp only [Shutdown_run, hid, hok, hlog, hjson, if_true]
  · simp only [Cycle_run, hid, hok, hlog, hjson, if_true]

theorem C6_witness :
    run (Cycle mockOk "" ⟨"tok", true, 7⟩) = ⟨[⟨.PowerCycle, 7⟩], "7" ++ "\n", none⟩ :=
  (C6_verbose_output_is_json mockOk "" ⟨"tok", true, 7⟩ 7 7 "7" rfl (by decide) rfl).2.2.2 rfl

/-- C7, as the code has it. For every droplet returned successfully by the API whose
`Name` and `Status` hold no tab, vertical tab, newline or form feed, the text `Status`
emits on standard output consists of exactly two lines: one header line with the cells
`ID`, `Name`, `Status`, each followed by one or more tabs (two after `Status`), and one
data line with the droplet's ID in decimal, its `Name` and its `Status`, in that order,
the cells separated by one or more tabs. -/
theorem C7_status_table {Action : Type} (env : Env Action) (arg : String) (cfg : tomlConfig)
    (id : Int) (d : Droplet) (hid : resolvedID arg cfg = some id) (h1 : 1 ≤ id)
    (hok : env.NewClient ⟨cfg.Token⟩ .Get id = .ok d)
    (hname : ∀ c ∈ d.Name.toList, Plain c) (hstatus : ∀ c ∈ d.Status.toList, Plain c) :
    ∃ k1 k2 j1 j2 : Nat, 0 < k1 ∧ 0 < k2 ∧ 0 < j1 ∧ 0 < j2 ∧
      run (Status env arg cfg) =
        ⟨[⟨.Get, id⟩], headerLine k1 k2 2 ++ "\n" ++ dataLine d j1 j2 ++ "\n", none⟩ ∧
      textLines (headerLine k1 k2 2 ++ "\n" ++ dataLine d j1 j2 ++ "\n") =
        [(headerLine k1 k2 2).toList, (dataLine d j1 j2).toList] := by
  have hlt : ¬ id < 1 := by omega
  refine ⟨tabsN 2 (max 5 ((toString d.ID).length + 3)), tabsN 4 (max 7 (d.Name.length + 3)),
    tabsN (toString d.ID).length (max 5 ((toString d.ID).length + 3)),
    tabsN d.Name.length (max 7 (d.Name.length + 3)),
    tabsN_pos _ _ (by omega), tabsN_pos _ _ (by omega), tabsN_pos _ _ (by omega),
    tabsN_pos _ _ (by omega), ?_,
    textLines_two _ _ (headerLine_no_newline _ _ _) (dataLine_no_newline d _ _ hname hstatus)⟩
  simp only [Status_run, hid, hlt, if_false, hok, statusTable_eq d hname hstatus]

theorem C7_witness :
    (∃ k1 k2 j1 j2 : Nat, 0 < k1 ∧ 0 < k2 ∧ 0 < j1 ∧ 0 < j2 ∧
      run (Status mockOk "" ⟨"tok", false, 7⟩) =
        ⟨[⟨.Get, 7⟩],
          headerLine k1 k2 2 ++ "\n" ++ dataLine ⟨7, "web", "active"⟩ j1 j2 ++ "\n", none⟩ ∧
      textLines (headerLine k1 k2 2 ++ "\n" ++ dataLine ⟨7, "web", "active"⟩ j1 j2 ++ "\n") =
        [(headerLine k1 k2 2).toList, (dataLine ⟨7, "web", "active"⟩ j1 j2).toList]) ∧
      run (Status mockOk "" ⟨"tok", false, 7⟩) =
        ⟨[⟨.Get, 7⟩], "ID\tName\tStatus\t\t\n7\tweb\tactive\n", none⟩ :=
  ⟨C7_status_table mockOk "" ⟨"tok", false, 7⟩ 7 ⟨7, "web", "active"⟩ (by decide) (by decide)
    rfl (by decide) (by decide), by decide⟩

/-- C7 as stated fails. For the droplet `1` named `a\nb`, and for the one named `a\fb`
(form feed), `Status` prints three lines, not two. For the droplet named `abcdef\tb`,
and for the one named `a\vb` (vertical tab), the data line has four cells and the
droplet's `Name` does not occur in the output. -/
theorem C7_name_with_separator :
    (run (Status (mockGet ⟨1, "a\nb", "off"⟩) "1" ⟨"tok", false, 0⟩) =
        ⟨[⟨.Get, 1⟩], "ID\tName\tStatus\t\t\n1\ta\nb\toff\n", none⟩ ∧
      (textLines "ID\tName\tStatus\t\t\n1\ta\nb\toff\n").length = 3) ∧
    (run (Status (mockGet ⟨1, "a\x0cb", "off"⟩) "1" ⟨"tok", false, 0⟩) =
        ⟨[⟨.Get, 1⟩], "ID\tName\tStatus\t\t\n1\ta\nb\toff\n", none⟩) ∧
    (run (Status (mockGet ⟨1, "abcdef\tb", "off"⟩) "1" ⟨"tok", false, 0⟩) =
        ⟨[⟨.Get, 1⟩], "ID\tName\t\tStatus\t\t\n1\tabcdef\t\tb\t\toff\n", none⟩ ∧
      ¬ "abcdef\tb".toList <:+: "ID\tName\t\tStatus\t\t\n1\tabcdef\t\tb\t\toff\n".toList) ∧
    (run (Status (mockGet ⟨1, "a\x0bb", "off"⟩) "1" ⟨"tok", false, 0⟩) =
        ⟨[⟨.Get, 1⟩], "ID\tName\tStatus\t\t\n1\ta\tb\t\toff\n", none⟩ ∧
      ¬ "a\x0bb".toList <:+: "ID\tName\tStatus\t\t\n1\ta\tb\t\toff\n".toList) := by
  decide

/-- C8. For each of the five handlers, for every argument and config whose ID resolves
(for `status`: to an ID of at least 1, so that the call is made), if the API call
returns an error `e` then the handler terminates fatally reporting `e` unchanged, has
made that one API call and no other, and has written nothing to standard output. -/
theorem C8_api_error_is_fatal {Action : Type} (cmd : Cmd) (env : Env Action) (arg : String)
    (cfg : tomlConfig) (id : Int) (e : String) (hid : resolvedID arg cfg = some id)
    (hcall : cmd = .status → 1 ≤ id)
    (herr : env.NewClient ⟨cfg.Token⟩ cmd.method id = .error e) :
    run (cmd.handler env arg cfg) = ⟨[⟨cmd.method, id⟩], "", some e⟩ :=
  run_of_api_error cmd env arg cfg id e hid hcall herr

theorem C8_witness :
    run (Cmd.status.handler mockFail "42" ⟨"tok", true, 7⟩) =
      ⟨[⟨.Get, 42⟩], "", some "401 Unable to authenticate you."⟩ :=
  C8_api_error_is_fatal Cmd.status mockFail "42" ⟨"tok", true, 7⟩ 42
    "401 Unable to authenticate you." (by decide) (fun _ => by decide) rfl

/-- C9. For every argument string and every config, `Status` calls `Droplets.Get` only
with an ID of at least 1; whenever the resolved ID is below 1 (a negative argument, or
an argument of value zero with a negative config default), `Status` terminates fatally
with `missing droplet id`, without any API call and without printing a table. -/
theorem C9_status_needs_positive_id {Action : Type} (env : Env Action) (arg : String)
    (cfg : tomlConfig) :
    (∀ c ∈ (run (Status env arg cfg)).calls, c.method = .Get ∧ 1 ≤ c.id) ∧
      ∀ id, resolvedID arg cfg = some id → id < 1 →
        run (Status env arg cfg) = ⟨[], "", some "missing droplet id"⟩ := by
  constructor
  · rw [Status_run]
    cases hid : resolvedID arg cfg with
    | none => simp
    | some id =>
      by_cases h1 : id < 1
      · simp [h1]
      · cases hc : env.NewClient ⟨cfg.Token⟩ .Get id <;> simp [h1, hc] <;> omega
  · intro id hid h1
    simp only [Status_run, hid, h1, if_true]

theorem C9_witness :
    resolvedID "abc" ⟨"tok", false, -3⟩ = some (-3) ∧
      run (Status mockOk "abc" ⟨"tok", false, -3⟩) = ⟨[], "", some "missing droplet id"⟩ :=
  ⟨by decide,
    (C9_status_needs_positive_id mockOk "abc" ⟨"tok", false, -3⟩).2 (-3) (by decide)
      (by decide)⟩

/-- C10. The outcome of `Status` does not depend on `config.Log`, nor on the JSON
encoder: for every argument and every API response, two configs that differ only in the
`Log` field, run against API layers that differ only in `json.Marshal`, give the same API
calls, the same standard output and the same end. -/
theorem C10_status_ignores_log {Action : Type} (env1 env2 : Env Action) (arg : String)
    (cfg1 cfg2 : tomlConfig) (hclient : env1.NewClient = env2.NewClient)
    (htoken : cfg1.Token = cfg2.Token) (hdefault : cfg1.DropletID = cfg2.DropletID) :
    run (Status env1 arg cfg1) = run (Status env2 arg cfg2) := by
  have hres : resolvedID arg cfg1 = resolvedID arg cfg2 := by
    simp only [resolvedID, hdefault]
  rw [Status_run, Status_run, hres, hclient, htoken]

theorem C10_witness :
    run (Status mockOk "" ⟨"tok", true, 7⟩) =
      run (Status { mockOk with jsonMarshal := fun _ => .error "unsupported value" } ""
        ⟨"tok", false, 7⟩) :=
  C10_status_ignores_log mockOk { mockOk with jsonMarshal := fun _ => .error "unsupported value" }
    "" ⟨"tok", true, 7⟩ ⟨"tok", false, 7⟩ rfl rfl rfl

end Lsc
